import Mathlib

/-!
Shallow embedding of the Sortyx cloud backend (`app.py`): the hand/wrist
detector (`HandWristDetector`), the object-in-hand scan of the
`/detect-hand-wrist` endpoint, and the waste-classification arbiter
(`RecyclableWasteClassifier`) with the `/classify` endpoint boundary.

Model conventions:
* numeric model-output scores (keypoint confidences, detection confidences)
  are rationals; the source only compares, scales and truncates them;
* Python `int(...)` on such a value is truncation toward zero (`truncQ`);
  Python `//` on integers is floor division (`Int.fdiv`);
* external model inference (YOLO pose / detection / classification, Gemini)
  is a black box per the spec: the outputs of each call made by the code
  are fields of an environment record (`Env`, `ClassifierState`);
* Python dicts that omit a key are modelled with `Option` fields
  (`none` = key absent);
* `str.lower` / `str.title` are modelled for ASCII text, which is the only
  text the code compares against.
-/

namespace Sortyx

/-- Python `int()` applied to an exact rational: truncation toward zero. -/
def truncQ (q : ℚ) : ℤ := q.num.tdiv (q.den : ℤ)

/-- Python `str.lower` (ASCII). -/
def lowerS (s : String) : String := ⟨s.data.map Char.toLower⟩

/-- Python substring test `needle in hay` over character lists. -/
def listContains (needle : List Char) : List Char → Bool
  | [] => needle.isEmpty
  | c :: rest => List.isPrefixOf needle (c :: rest) || listContains needle rest

/-- Python `needle in hay` on strings. -/
def containsS (hay needle : String) : Bool := listContains needle.data hay.data

/-- Python `str.strip()` on a character list. -/
def pyStrip (s : List Char) : List Char :=
  ((s.dropWhile Char.isWhitespace).reverse.dropWhile Char.isWhitespace).reverse

/-- Helper for `pyTitle`: the Bool records whether the previous char was alphabetic. -/
def pyTitleGo : Bool → List Char → List Char
  | _, [] => []
  | prevAlpha, c :: rest =>
    (if prevAlpha then c.toLower else c.toUpper) :: pyTitleGo c.isAlpha rest

/-- Python `str.title()` (ASCII). -/
def pyTitle (s : String) : String := ⟨pyTitleGo false s.data⟩

/-! ### Data model (spec section 3, mirrored from the dict shapes in `app.py`) -/

/-- One pose keypoint `(x, y, confidence)` (a row of `r.keypoints.data[0]`). -/
structure Keypoint where
  x : ℚ
  y : ℚ
  conf : ℚ
deriving DecidableEq

/-- The keypoints of the first detected person that `detect_hand_wrist` reads,
at the fixed YOLO pose indices, plus `len(kpts)`.
Fields: `leftWrist` = `kpts[9]`, `rightWrist` = `kpts[10]`,
`leftElbow` = `kpts[7]`, `rightElbow` = `kpts[8]`,
`leftShoulder` = `kpts[5]`, `rightShoulder` = `kpts[6]`. -/
structure Skeleton where
  leftWrist : Keypoint
  rightWrist : Keypoint
  leftElbow : Keypoint
  rightElbow : Keypoint
  leftShoulder : Keypoint
  rightShoulder : Keypoint
  count : ℕ
deriving DecidableEq

/-- A bounding box dict `{x_min, y_min, x_max, y_max}`. -/
structure Rect where
  x_min : ℤ
  y_min : ℤ
  x_max : ℤ
  y_max : ℤ
deriving DecidableEq

/-- A pixel point dict `{x, y}`. -/
structure Pt where
  x : ℤ
  y : ℤ
deriving DecidableEq

/-- One box of a YOLO object-detection result (`box.cls`, `box.conf`, `box.xyxy`,
already resolved through `r.names` and `map(int, ...)`). -/
structure DetBox where
  cls : String
  conf : ℚ
  x1 : ℤ
  y1 : ℤ
  x2 : ℤ
  y2 : ℤ
deriving DecidableEq

/-- An entry of the endpoint's `detected_objects` list:
`{"class": ..., "confidence": ..., "bbox": [x1, y1, x2, y2]}`. -/
structure DetObj where
  cls : String
  conf : ℚ
  x1 : ℤ
  y1 : ℤ
  x2 : ℤ
  y2 : ℤ
deriving DecidableEq

/-- The endpoint's `object_bbox` dict
`{x_min, y_min, x_max, y_max, class, confidence}`. -/
structure ObjBox where
  x_min : ℤ
  y_min : ℤ
  x_max : ℤ
  y_max : ℤ
  cls : String
  conf : ℚ
deriving DecidableEq

/-- The dict returned by `HandWristDetector.detect_hand_wrist` /
`detect_person_fallback`.  `method` is `Option`-valued because several of the
source's return dicts omit the `"method"` key entirely. -/
structure HandDetectionResult where
  hand_detected : Bool
  wrist_detected : Bool
  hand_bbox : Option Rect
  wrist_position : Option Pt
  confidence : ℚ
  keypoints_count : ℕ
  message : String
  method : Option String
deriving DecidableEq

/-- A decoded frame: `h, w, _ = image.shape`. -/
structure Frame where
  w : ℤ
  h : ℤ
deriving DecidableEq

/-- The black-box inference outputs consumed by one `/detect-hand-wrist`
request (spec section 6): decoding outcome, pose-model availability and its
result list, the shared detection model availability, and the detection
results of the fallback call (`conf=0.15`) and the endpoint call
(`conf=0.3, iou=0.45`).  A result element `none` models a result object
whose `keypoints` / `boxes` attribute is absent or `None`. -/
structure Env where
  image : Option Frame
  poseLoaded : Bool
  poseRaises : Bool
  poseResults : List (Option (List Skeleton))
  detLoaded : Bool
  fallbackResults : List (Option (List DetBox))
  objResults : List (Option (List DetBox))
deriving DecidableEq

/-! ### HandWristDetector -/

/-- `WRIST_CONFIDENCE_THRESHOLD = 0.30` (line 320). -/
def WRIST_CONFIDENCE_THRESHOLD : ℚ := mkRat 30 100

/-- The wrist-acceptance test of line 322: strict `wrist[2] > 0.30`. -/
def wristAccepted (c : ℚ) : Bool := WRIST_CONFIDENCE_THRESHOLD < c

/-- The gate of line 322: `left_wrist[2] > T or right_wrist[2] > T`. -/
def wristOk (s : Skeleton) : Bool :=
  wristAccepted s.leftWrist.conf || wristAccepted s.rightWrist.conf

/-- Which arm the branch at line 323 picks: `if left_wrist[2] > right_wrist[2]`
uses the left arm, otherwise (including ties) the right arm. -/
inductive Side where
  | left
  | right
deriving DecidableEq

/-- The dominant-arm comparison of line 323. -/
def selectDominantArm (leftConf rightConf : ℚ) : Side :=
  if rightConf < leftConf then Side.left else Side.right

/-- The wrist keypoint picked by the line-323 branch. -/
def chosenWrist (s : Skeleton) : Keypoint :=
  match selectDominantArm s.leftWrist.conf s.rightWrist.conf with
  | Side.left => s.leftWrist
  | Side.right => s.rightWrist

/-- The elbow keypoint picked by the line-323 branch. -/
def chosenElbow (s : Skeleton) : Keypoint :=
  match selectDominantArm s.leftWrist.conf s.rightWrist.conf with
  | Side.left => s.leftElbow
  | Side.right => s.rightElbow

/-- The shoulder keypoint picked by the line-323 branch. -/
def chosenShoulder (s : Skeleton) : Keypoint :=
  match selectDominantArm s.leftWrist.conf s.rightWrist.conf with
  | Side.left => s.leftShoulder
  | Side.right => s.rightShoulder

/-- Line 349-355: direction component `dx = wrist_x - (elbow_x if
elbow_conf >= 0.2 else int(shoulder_x))` (the code tests `elbow_conf < 0.2`). -/
def handDx (wx ex : ℤ) (elbowConf : ℚ) (sx : ℤ) : ℤ :=
  if elbowConf < mkRat 2 10 then wx - sx else wx - ex

/-- Line 358: `hand_center = int(wrist + d * 0.35)`. -/
def handCenter (wz dz : ℤ) : ℤ := truncQ ((wz : ℚ) + (dz : ℚ) * mkRat 35 100)

/-- Lines 347-373: the hand bounding box, a square of half-width
`box_size = 250` around the extended hand center, clamped with
`max 0` / `min w` (`min h`). -/
def handRegion (wx wy ex ey : ℤ) (elbowConf : ℚ) (sx sy w h : ℤ) : Rect :=
  let dx := handDx wx ex elbowConf sx
  let dy := handDx wy ey elbowConf sy
  let cx := handCenter wx dx
  let cy := handCenter wy dy
  { x_min := max 0 (cx - 250)
    y_min := max 0 (cy - 250)
    x_max := min w (cx + 250)
    y_max := min h (cy + 250) }

/-- The successful pose-path return dict of lines 381-390. -/
def poseResult (s : Skeleton) (w h : ℤ) : HandDetectionResult :=
  let wrist := chosenWrist s
  let elbow := chosenElbow s
  let shoulder := chosenShoulder s
  let wx := truncQ wrist.x
  let wy := truncQ wrist.y
  { hand_detected := true
    wrist_detected := true
    hand_bbox := some (handRegion wx wy (truncQ elbow.x) (truncQ elbow.y)
      elbow.conf (truncQ shoulder.x) (truncQ shoulder.y) w h)
    wrist_position := some ⟨wx, wy⟩
    confidence := wrist.conf
    keypoints_count := s.count
    message := "Hand and wrist detected successfully"
    method := some "pose" }

/-- Lines 289-398 loop: the first result having a non-empty keypoints list
whose first person passes the wrist gate; results failing the gate are
logged and skipped. -/
def firstAccepted : List (Option (List Skeleton)) → Option Skeleton
  | [] => none
  | none :: rest => firstAccepted rest
  | some [] :: rest => firstAccepted rest
  | some (s :: _) :: rest => if wristOk s then some s else firstAccepted rest

/-- Line 231: some detection result contains a box whose lowered class
name is `person`. -/
def hasPersonBox (rs : List (Option (List DetBox))) : Bool :=
  rs.any fun r => (r.getD []).any fun b => lowerS b.cls == "person"

/-- The dict of lines 240-249, returned by `detect_person_fallback` when a
person box is found: explicitly NOT a hand detection. -/
def fallbackFailedResult : HandDetectionResult :=
  { hand_detected := false
    wrist_detected := false
    hand_bbox := none
    wrist_position := none
    confidence := 0
    keypoints_count := 0
    message := "Person detected but wrist keypoints not found. Please position hand clearly."
    method := some "fallback_failed" }

/-- `HandWristDetector.detect_person_fallback` (lines 208-256): `None` when
the detection model is unloaded, when no person box appears, or on an
inference exception; otherwise the `fallback_failed` dict. -/
def detect_person_fallback (env : Env) : Option HandDetectionResult :=
  if env.detLoaded = false then none
  else if hasPersonBox env.fallbackResults then some fallbackFailedResult
  else none

/-- The dict of lines 270-278 (pose model unloaded, fallback returned `None`).
The source omits the `"method"` key here. -/
def noModelResult : HandDetectionResult :=
  { hand_detected := false
    wrist_detected := false
    hand_bbox := none
    wrist_position := none
    confidence := 0
    keypoints_count := 0
    message := "Pose model not loaded and fallback failed"
    method := none }

/-- The dict of lines 406-414 (pose ran, no wrist accepted, fallback `None`).
The source omits the `"method"` key here. -/
def noDetectResult : HandDetectionResult :=
  { hand_detected := false
    wrist_detected := false
    hand_bbox := none
    wrist_position := none
    confidence := 0
    keypoints_count := 0
    message := "No person or hands detected"
    method := none }

/-- The dict of lines 427-435 (exception during pose inference, fallback
`None`); the interpolated exception text is modelled as a constant.
The source omits the `"method"` key here. -/
def errorResult : HandDetectionResult :=
  { hand_detected := false
    wrist_detected := false
    hand_bbox := none
    wrist_position := none
    confidence := 0
    keypoints_count := 0
    message := "Error"
    method := none }

/-- `HandWristDetector.detect_hand_wrist` (lines 258-435) over one frame of
size `w x h`: no pose model -> fallback else the no-model dict; pose
inference raising -> fallback else the error dict; otherwise scan the results
for an accepted skeleton, and on failure fall back, then the no-detection
dict. -/
def detect_hand_wrist (env : Env) (w h : ℤ) : HandDetectionResult :=
  if env.poseLoaded = false then
    (detect_person_fallback env).getD noModelResult
  else if env.poseRaises then
    (detect_person_fallback env).getD errorResult
  else
    match firstAccepted env.poseResults with
    | some s => poseResult s w h
    | none => (detect_person_fallback env).getD noDetectResult

/-! ### The `/detect-hand-wrist` endpoint: object-in-hand scan and merge -/

/-- Line 800-801: box center via Python floor division `//`. -/
def boxCenterX (b : DetBox) : ℤ := Int.fdiv (b.x1 + b.x2) 2

/-- Line 800-801: box center via Python floor division `//`. -/
def boxCenterY (b : DetBox) : ℤ := Int.fdiv (b.y1 + b.y2) 2

/-- Lines 814-815: inclusive containment of the box center in the hand box. -/
def centerInHand (hb : Rect) (b : DetBox) : Bool :=
  decide (hb.x_min ≤ boxCenterX b) && decide (boxCenterX b ≤ hb.x_max) &&
  decide (hb.y_min ≤ boxCenterY b) && decide (boxCenterY b ≤ hb.y_max)

/-- A box that triggers the match at line 817: not a person and center in
the hand box (person boxes are skipped at line 810). -/
def heldBy (hb : Rect) (b : DetBox) : Bool :=
  !(lowerS b.cls == "person") && centerInHand hb b

/-- Lines 827-837: the crop rectangle, the box padded by 20 px and clamped;
`none` when the cropped slice is empty (`cropped.size > 0` fails).  The
base64 JPEG encoding of the slice is I/O and is represented by the
rectangle that is encoded. -/
def cropRegion (w h : ℤ) (b : DetBox) : Option Rect :=
  let r : Rect := ⟨max 0 (b.x1 - 20), max 0 (b.y1 - 20), min w (b.x2 + 20), min h (b.y2 + 20)⟩
  if r.x_min < r.x_max && r.y_min < r.y_max then some r else none

/-- `detected_objects` list entry built at line 803. -/
def mkDetObj (b : DetBox) : DetObj := ⟨b.cls, b.conf, b.x1, b.y1, b.x2, b.y2⟩

/-- `object_bbox` dict built at line 818. -/
def mkObjBox (b : DetBox) : ObjBox := ⟨b.x1, b.y1, b.x2, b.y2, b.cls, b.conf⟩

/-- The mutable locals of the scan loop (lines 786-790). -/
structure ScanState where
  object_in_hand : Bool
  object_bbox : Option ObjBox
  cropped_image : Option Rect
  max_confidence : ℚ
  detected_objects : List DetObj
deriving DecidableEq

/-- Initial scan state (lines 786-790). -/
def initScan : ScanState :=
  { object_in_hand := false
    object_bbox := none
    cropped_image := none
    max_confidence := 0
    detected_objects := [] }

/-- The inner `for box in r.boxes` loop (lines 794-840).  Every box is first
appended to `detected_objects`; person boxes are then skipped; the first
remaining box whose center lies in the hand region sets the match state and
`break`s (second component `true`). -/
def scanBoxes (w h : ℤ) (hb : Rect) : List DetBox → ScanState → ScanState × Bool
  | [], st => (st, false)
  | b :: rest, st =>
    let st1 : ScanState := { st with detected_objects := st.detected_objects ++ [mkDetObj b] }
    if lowerS b.cls == "person" then scanBoxes w h hb rest st1
    else if centerInHand hb b then
      ({ st1 with
          object_in_hand := true
          object_bbox := some (mkObjBox b)
          max_confidence := max st1.max_confidence b.conf
          cropped_image :=
            match cropRegion w h b with
            | some r => some r
            | none => st1.cropped_image }, true)
    else scanBoxes w h hb rest st1

/-- The outer `for r in results` loop (lines 792-843), with the
`if object_in_hand: break` at line 842. -/
def scanResults (w h : ℤ) (hb : Rect) : List (Option (List DetBox)) → ScanState → ScanState
  | [], st => st
  | r :: rest, st =>
    match r with
    | none => scanResults w h hb rest st
    | some boxes =>
      let p := scanBoxes w h hb boxes st
      if p.1.object_in_hand then p.1 else scanResults w h hb rest p.1

/-- All boxes of a detection result list, in detector-returned order. -/
def allBoxes : List (Option (List DetBox)) → List DetBox
  | [] => []
  | r :: rest => r.getD [] ++ allBoxes rest

/-- The boxes the scan loop actually visits (and appends to
`detected_objects`): everything up to and including the first match. -/
def scannedUpTo (hb : Rect) : List DetBox → List DetBox
  | [] => []
  | b :: rest => if heldBy hb b then [b] else b :: scannedUpTo hb rest

/-- The merged response dict of the `/detect-hand-wrist` endpoint.
`Option`-valued fields model keys that some return sites omit
(`detected_objects` is absent from the line-782 return; `some []` is a
present empty list). -/
structure MergedResponse where
  hand_detected : Bool
  wrist_detected : Bool
  hand_bbox : Option Rect
  wrist_position : Option Pt
  confidence : ℚ
  keypoints_count : ℕ
  message : String
  method : Option String
  object_in_hand : Bool
  cropped_image : Option Rect
  object_bbox : Option ObjBox
  detected_objects : Option (List DetObj)
deriving DecidableEq

/-- The short 4-key payload used for the invalid-image return (lines 756-762)
and the outer exception handler (lines 855-862). -/
structure SimplePayload where
  hand_detected : Bool
  wrist_detected : Bool
  object_in_hand : Bool
  message : String
deriving DecidableEq

/-- A `/detect-hand-wrist` endpoint response body: either the short 4-key
payload or a merged hand-result payload.  Every branch of the endpoint
returns a 200 body; no branch raises an HTTP error. -/
inductive DetectOut where
  | simple (p : SimplePayload)
  | merged (m : MergedResponse)
deriving DecidableEq

/-- The invalid-image payload of lines 756-762. -/
def invalidImagePayload : SimplePayload :=
  { hand_detected := false, wrist_detected := false, object_in_hand := false
    message := "Invalid image" }

/-- The `/detect-hand-wrist` endpoint (lines 742-862).  Undecodable image ->
the 4-key payload; hand or wrist undetected -> the hand result merged with
empty object state (line 769-776); detection model unloaded -> merge of
line 782 (which omits the object keys); otherwise the scan and the merge of
lines 845-853, where a match overrides `confidence` and `message`.
The impossible `hand_detected` without `hand_bbox` combination hits a
`NoneType` subscript in the source and lands in the outer exception handler,
modelled by the short error payload. -/
def detectRoute (env : Env) : DetectOut :=
  match env.image with
  | none => DetectOut.simple invalidImagePayload
  | some f =>
    let hr := detect_hand_wrist env f.w f.h
    if hr.hand_detected = false || hr.wrist_detected = false then
      DetectOut.merged
        { hand_detected := hr.hand_detected
          wrist_detected := hr.wrist_detected
          hand_bbox := hr.hand_bbox
          wrist_position := hr.wrist_position
          confidence := hr.confidence
          keypoints_count := hr.keypoints_count
          message := hr.message
          method := hr.method
          object_in_hand := false
          cropped_image := none
          object_bbox := none
          detected_objects := some [] }
    else
      match hr.hand_bbox with
      | none => DetectOut.simple ⟨false, false, false, "Error"⟩
      | some hb =>
        if env.detLoaded = false then
          DetectOut.merged
            { hand_detected := hr.hand_detected
              wrist_detected := hr.wrist_detected
              hand_bbox := hr.hand_bbox
              wrist_position := hr.wrist_position
              confidence := hr.confidence
              keypoints_count := hr.keypoints_count
              message := "Detection model not loaded"
              method := hr.method
              object_in_hand := false
              cropped_image := none
              object_bbox := none
              detected_objects := none }
        else
          let st := scanResults f.w f.h hb env.objResults initScan
          DetectOut.merged
            { hand_detected := hr.hand_detected
              wrist_detected := hr.wrist_detected
              hand_bbox := hr.hand_bbox
              wrist_position := hr.wrist_position
              confidence := if st.object_in_hand then st.max_confidence else hr.confidence
              keypoints_count := hr.keypoints_count
              message :=
                if st.object_in_hand then "Hand, wrist, and object detected"
                else "Hand/wrist detected, waiting for object"
              method := hr.method
              object_in_hand := st.object_in_hand
              cropped_image := st.cropped_image
              object_bbox := st.object_bbox
              detected_objects := some st.detected_objects }

/-! ### RecyclableWasteClassifier -/

/-- A classification verdict dict (the shape shared by
`classify_with_yolo_model`, `parse_gemini_response`,
`get_fallback_classification`). -/
structure Verdict where
  classification : String
  item_name : String
  explanation : String
  bin_color : String
  disposal_code : String
  confidence : ℚ
  method : String
deriving DecidableEq

/-- `WASTE_CATEGORIES[c]["color"]` (lines 141-152). -/
def binColor (c : String) : String := if c = "Recyclable" then "Green" else "Black"

/-- `WASTE_CATEGORIES[c]["disposal_code"]` (lines 141-152). -/
def disposalCode (c : String) : String := if c = "Recyclable" then "REC" else "NR"

/-- `get_fallback_classification` (lines 682-692). -/
def get_fallback_classification : Verdict :=
  { classification := "Non-Recyclable"
    item_name := "Unknown Item"
    explanation := "Could not classify - defaulting to non-recyclable for safety."
    bin_color := "Black"
    disposal_code := "NR"
    confidence := mkRat 50 100
    method := "fallback" }

/-- The tail of `text.split(":", 1)`: the characters after the first colon,
`none` when `":" in text` fails. -/
def afterFirstColon : List Char → Option (List Char)
  | [] => none
  | c :: rest => if c = ':' then some rest else afterFirstColon rest

/-- Lines 660-669: item name between the first colon and the following
period, stripped; `"Unknown Item"` when either separator is missing. -/
def extractItemName (text : String) : String :=
  match afterFirstColon text.data with
  | none => "Unknown Item"
  | some tail =>
    let info := pyStrip tail
    if info.contains '.' then ⟨pyStrip (info.takeWhile fun c => c ≠ '.')⟩
    else "Unknown Item"

/-- `RecyclableWasteClassifier.parse_gemini_response` (lines 651-680). -/
def parse_gemini_response (text : String) : Verdict :=
  let textLower := lowerS text
  let classification :=
    if containsS textLower "recyclable" && !containsS textLower "non-recyclable"
    then "Recyclable" else "Non-Recyclable"
  { classification := classification
    item_name := extractItemName text
    explanation := text
    bin_color := binColor classification
    disposal_code := disposalCode classification
    confidence := mkRat 85 100
    method := "llm" }

/-- Keyword table of line 552. -/
def recyclableKeywords : List String :=
  ["plastic", "bottle", "can", "metal", "aluminum", "glass",
   "paper", "cardboard", "box", "container", "jar", "tin"]

/-- Keyword table of line 554. -/
def nonRecyclableKeywords : List String :=
  ["food", "organic", "waste", "styrofoam", "ceramic", "fabric"]

/-- Result of `map_class_to_category`. -/
structure CategoryResult where
  category : String
  reason : String
deriving DecidableEq

/-- `RecyclableWasteClassifier.map_class_to_category` (lines 548-564). -/
def map_class_to_category (className : String) (confidence : ℚ) : CategoryResult :=
  let classLower := lowerS className
  if recyclableKeywords.any (fun k => containsS classLower k) then
    ⟨"Recyclable", "This item can be recycled."⟩
  else if nonRecyclableKeywords.any (fun k => containsS classLower k) then
    ⟨"Non-Recyclable", "This item cannot be recycled."⟩
  else
    ⟨if mkRat 7 10 < confidence then "Recyclable" else "Non-Recyclable",
     "Classification based on AI analysis."⟩

/-- The black-box classifier collaborators of one `/classify` request:
`yoloClsTop = none` models `yolo_classification_model is None`;
`some none` a loaded model whose result has no usable `probs`;
`some (some (name, conf))` the top-1 class and confidence.
`geminiAttempts = none` models `genai_client` unset (no API key);
`some outcomes` gives, per candidate model in order, `none` for an attempt
that raised and `some text` for a returned response text. -/
structure ClassifierState where
  yoloClsTop : Option (Option (String × ℚ))
  geminiAttempts : Option (List (Option String))
deriving DecidableEq

/-- The model-candidate loop of lines 595-641: the first attempt returning a
non-empty text (`if response and response.text`); failing or empty attempts
continue. -/
def firstNonEmptyText : List (Option String) → Option String
  | [] => none
  | attempt :: rest =>
    match attempt with
    | some t => if t = "" then firstNonEmptyText rest else some t
    | none => firstNonEmptyText rest

/-- `RecyclableWasteClassifier.classify_with_gemini` (lines 566-649):
no client -> fallback; else the first non-empty model response is parsed;
all candidates failing -> fallback. -/
def classify_with_gemini (cst : ClassifierState) : Verdict :=
  match cst.geminiAttempts with
  | none => get_fallback_classification
  | some attempts =>
    match firstNonEmptyText attempts with
    | some t => parse_gemini_response t
    | none => get_fallback_classification

/-- `RecyclableWasteClassifier.classify_with_yolo_model` (lines 517-546):
model unloaded or no usable probs -> the Gemini path; else the top-1 class
is mapped by `map_class_to_category`.  The numeric interpolation inside the
explanation f-string is elided. -/
def classify_with_yolo_model (cst : ClassifierState) : Verdict :=
  match cst.yoloClsTop with
  | none => classify_with_gemini cst
  | some none => classify_with_gemini cst
  | some (some (className, conf)) =>
    let mapped := map_class_to_category className conf
    { classification := mapped.category
      item_name := pyTitle className
      explanation := "AI model confidence. " ++ mapped.reason
      bin_color := binColor mapped.category
      disposal_code := disposalCode mapped.category
      confidence := conf
      method := "yolo_model" }

/-- Line 888: `(request.classification_method or "model").lower()` —
`None` and the empty string both default to `"model"`. -/
def effectiveMethod (m : Option String) : String :=
  lowerS (match m with
          | none => "model"
          | some s => if s = "" then "model" else s)

/-- The classification dispatch of lines 890-895. -/
def classify (cst : ClassifierState) (method : Option String) : Verdict :=
  if effectiveMethod method = "model" then classify_with_yolo_model cst
  else classify_with_gemini cst

/-- An HTTPException as seen by the caller. -/
structure HttpError where
  status : ℕ
  detail : String
deriving DecidableEq

/-- The `/classify` endpoint boundary (lines 873-935) on the decode outcome:
an undecodable image raises `HTTPException(400, "Invalid image")`, which the
`except HTTPException: raise` clause re-raises to the caller; a decoded
image produces the dispatched verdict. -/
def classify_route (img : Option Frame) (cst : ClassifierState)
    (method : Option String) : Except HttpError Verdict :=
  match img with
  | none => Except.error ⟨400, "Invalid image"⟩
  | some _ => Except.ok (classify cst method)

/-! ### Computation lemmas -/

/-- `truncQ` is truncation toward zero — the semantics of Python `int()`:
floor for nonnegative rationals, ceiling for negative ones. -/
lemma truncQ_eq (q : ℚ) : truncQ q = if 0 ≤ q then ⌊q⌋ else ⌈q⌉ := by
  rcases le_or_lt 0 q with hq | hq
  · rw [if_pos hq, truncQ, Int.tdiv_eq_ediv (Rat.num_nonneg.2 hq) (Int.ofNat_nonneg _),
      Rat.floor_def]
  · have hnum : q.num < 0 := Rat.num_neg.2 hq
    rw [if_neg (not_le.2 hq), truncQ]
    have h1 : q.num.tdiv q.den = -((-q.num).tdiv q.den) := by
      rw [Int.neg_tdiv, Int.neg_neg]
    rw [h1, Int.tdiv_eq_ediv (by omega) (Int.ofNat_nonneg _)]
    have h2 : (-q.num) / (q.den : ℤ) = ⌊-q⌋ := by
      rw [Rat.floor_def, Rat.num_neg_eq_neg_num, Rat.den_neg_eq_den]
    rw [h2]
    have h3 : ⌈q⌉ = -⌊-q⌋ := by
      rw [← Int.ceil_neg, neg_neg]
    rw [h3]

/-- Truncation toward zero of an integer-over-natural quotient is `Int.tdiv`. -/
lemma truncQ_intCast_div (n : ℤ) (d : ℕ) (hd : 0 < d) :
    truncQ ((n : ℚ) / (d : ℚ)) = n.tdiv d := by
  rcases le_or_lt 0 n with hn | hn
  · have hq : (0 : ℚ) ≤ (n : ℚ) / (d : ℚ) := by positivity
    rw [truncQ_eq, if_pos hq, Rat.floor_intCast_div_natCast,
      Int.tdiv_eq_ediv hn (Int.ofNat_nonneg d)]
  · have hq : ((n : ℚ) / (d : ℚ)) < 0 :=
      div_neg_of_neg_of_pos (by exact_mod_cast hn) (by exact_mod_cast hd)
    rw [truncQ_eq, if_neg (not_le.2 hq)]
    have h1 : ⌈(n : ℚ) / (d : ℚ)⌉ = -⌊-((n : ℚ) / (d : ℚ))⌋ := by
      rw [← Int.ceil_neg, neg_neg]
    have h2 : -((n : ℚ) / (d : ℚ)) = ((-n : ℤ) : ℚ) / (d : ℚ) := by
      push_cast
      ring
    rw [h1, h2, Rat.floor_intCast_div_natCast, ← Int.tdiv_eq_ediv (by omega) (Int.ofNat_nonneg d),
      Int.neg_tdiv, Int.neg_neg]

/-- `handCenter` computed purely over integers:
`int(wz + dz * 0.35) = (100 * wz + 35 * dz) tdiv 100`. -/
lemma handCenter_eval (wz dz : ℤ) : handCenter wz dz = (100 * wz + 35 * dz).tdiv 100 := by
  have h : (wz : ℚ) + (dz : ℚ) * mkRat 35 100 = ((100 * wz + 35 * dz : ℤ) : ℚ) / ((100 : ℕ) : ℚ) := by
    rw [Rat.mkRat_eq_div]
    push_cast
    ring
  rw [handCenter, h, truncQ_intCast_div _ _ (by norm_num)]
  norm_num

/-! ### Case analyses of the detector -/

/-- `detect_person_fallback` returns `None` or the fixed `fallback_failed` dict. -/
lemma detect_person_fallback_cases (env : Env) :
    detect_person_fallback env = none ∨
    detect_person_fallback env = some fallbackFailedResult := by
  unfold detect_person_fallback
  split
  · exact Or.inl rfl
  · split
    · exact Or.inr rfl
    · exact Or.inl rfl

/-- Every value `detect_hand_wrist` can return. -/
lemma detect_hand_wrist_cases (env : Env) (w h : ℤ) :
    (∃ s, firstAccepted env.poseResults = some s ∧
      detect_hand_wrist env w h = poseResult s w h) ∨
    detect_hand_wrist env w h = fallbackFailedResult ∨
    detect_hand_wrist env w h = noModelResult ∨
    detect_hand_wrist env w h = errorResult ∨
    detect_hand_wrist env w h = noDetectResult := by
  unfold detect_hand_wrist
  rcases detect_person_fallback_cases env with hf | hf <;> rw [hf]
  · split
    · right; right; left; rfl
    · split
      · right; right; right; left; rfl
      · rcases hfa : firstAccepted env.poseResults with _ | s
        · right; right; right; right; rfl
        · exact Or.inl ⟨s, rfl, rfl⟩
  · split
    · right; left; rfl
    · split
      · right; left; rfl
      · rcases hfa : firstAccepted env.poseResults with _ | s
        · right; left; rfl
        · exact Or.inl ⟨s, rfl, rfl⟩

/-- The `method` of a pose-path success. -/
lemma poseResult_method (s : Skeleton) (w h : ℤ) :
    (poseResult s w h).method = some "pose" := rfl

/-! ### Claims -/

/-- C2 (amended): every `HandDetectionResult` returned by `detect_hand_wrist`
satisfies `hand_detected = true → wrist_detected = true`,
`wrist_detected = true → hand_bbox` and `wrist_position` are non-null, and
`method = fallback_failed → hand_detected = false`; the `method` field,
WHEN PRESENT, is one of `pose` or `fallback_failed` — in the no-detection
and error outcomes the source omits the `method` key (and no outcome carries
a method value `none`). -/
theorem C2_hand_result_wellformed (env : Env) (w h : ℤ) :
    ((detect_hand_wrist env w h).hand_detected = true →
      (detect_hand_wrist env w h).wrist_detected = true) ∧
    ((detect_hand_wrist env w h).wrist_detected = true →
      (detect_hand_wrist env w h).hand_bbox.isSome = true ∧
      (detect_hand_wrist env w h).wrist_position.isSome = true) ∧
    ((detect_hand_wrist env w h).method = some "fallback_failed" →
      (detect_hand_wrist env w h).hand_detected = false) ∧
    (∀ m : String, (detect_hand_wrist env w h).method = some m →
      m = "pose" ∨ m = "fallback_failed") := by
  rcases detect_hand_wrist_cases env w h with ⟨s, _, hs⟩ | hs | hs | hs | hs <;> rw [hs]
  · refine ⟨fun _ => rfl, fun _ => ⟨rfl, rfl⟩, ?_, ?_⟩
    · intro hm
      have h1 : ("pose" : String) = "fallback_failed" := Option.some.inj hm
      exact absurd h1 (by decide)
    · intro m hm
      exact Or.inl (Option.some.inj hm).symm
  · refine ⟨?_, ?_, fun _ => rfl, ?_⟩
    · intro hd; exact absurd hd (by decide)
    · intro hd; exact absurd hd (by decide)
    · intro m hm
      exact Or.inr (Option.some.inj hm).symm
  · refine ⟨?_, ?_, ?_, ?_⟩
    · intro hd; exact absurd hd (by decide)
    · intro hd; exact absurd hd (by decide)
    · intro hm; exact Option.noConfusion hm
    · intro m hm; exact Option.noConfusion hm
  · refine ⟨?_, ?_, ?_, ?_⟩
    · intro hd; exact absurd hd (by decide)
    · intro hd; exact absurd hd (by decide)
    · intro hm; exact Option.noConfusion hm
    · intro m hm; exact Option.noConfusion hm
  · refine ⟨?_, ?_, ?_, ?_⟩
    · intro hd; exact absurd hd (by decide)
    · intro hd; exact absurd hd (by decide)
    · intro hm; exact Option.noConfusion hm
    · intro m hm; exact Option.noConfusion hm

/-- Environment with neither the pose model nor the detection model loaded. -/
def envNoModels : Env :=
  { image := some ⟨640, 480⟩
    poseLoaded := false
    poseRaises := false
    poseResults := []
    detLoaded := false
    fallbackResults := []
    objResults := [] }

/-- C2 counterexample: with neither model loaded, `detect_hand_wrist`
returns the line-270 dict, whose `method` key is ABSENT — the claim's
"the method field is present" is false for this reachable result. -/
theorem C2_counterexample_method_absent :
    (detect_hand_wrist envNoModels 640 480).method = none ∧
    (detect_hand_wrist envNoModels 640 480).hand_detected = false := ⟨rfl, rfl⟩

/-- C2 witness: the fallback-implies-not-detected implication applied at a
concrete environment. -/
theorem C2_hand_result_wellformed_witness :
    (detect_hand_wrist envNoModels 640 480).method = some "fallback_failed" →
    (detect_hand_wrist envNoModels 640 480).hand_detected = false :=
  (C2_hand_result_wellformed envNoModels 640 480).2.2.1

/-- C1: with the local classifier unloaded (`yolo_classification_model is
None`) and the cloud client unset (`genai_client is None`), `classify`
returns exactly the fallback verdict: Non-Recyclable, "Unknown Item",
confidence 0.50, method `fallback` — for every requested method. -/
theorem C1_total_failure_fallback (cst : ClassifierState) (method : Option String)
    (hy : cst.yoloClsTop = none) (hg : cst.geminiAttempts = none) :
    classify cst method = get_fallback_classification ∧
    (classify cst method).classification = "Non-Recyclable" ∧
    (classify cst method).item_name = "Unknown Item" ∧
    (classify cst method).confidence = 50 / 100 ∧
    (classify cst method).method = "fallback" := by
  have hval : classify cst method = get_fallback_classification := by
    unfold classify classify_with_yolo_model classify_with_gemini
    rw [hy, hg]
    split <;> rfl
  refine ⟨hval, ?_, ?_, ?_, ?_⟩ <;> rw [hval]
  · rfl
  · rfl
  · show mkRat 50 100 = 50 / 100
    rw [Rat.mkRat_eq_div]
    norm_num
  · rfl

/-- The classifier state with no local model and no cloud client. -/
def cstNone : ClassifierState := ⟨none, none⟩

/-- C1 witness: the total-failure fallback at the concrete empty state. -/
theorem C1_total_failure_fallback_witness :
    classify cstNone (some "model") = get_fallback_classification :=
  (C1_total_failure_fallback cstNone (some "model") rfl rfl).1

/-- The category pick of `parse_gemini_response` is Recyclable exactly when
its condition holds. -/
lemma category_ite_eq (b : Bool) :
    ((if b = true then "Recyclable" else "Non-Recyclable") = "Recyclable") ↔ b = true := by
  cases b
  · rw [if_neg (by decide)]
    exact ⟨fun hc => absurd hc (by decide), fun hc => absurd hc (by decide)⟩
  · rw [if_pos rfl]
    exact ⟨fun _ => rfl, fun _ => rfl⟩

/-- The category pick is always one of the two category strings. -/
lemma category_ite_total (b : Bool) :
    (if b = true then "Recyclable" else "Non-Recyclable") = "Recyclable" ∨
    (if b = true then "Recyclable" else "Non-Recyclable") = "Non-Recyclable" := by
  cases b
  · exact Or.inr rfl
  · exact Or.inl rfl

/-- C7: cloud-response parsing — classification is Recyclable iff the
lowered text contains `"recyclable"` and not `"non-recyclable"` (so a text
containing both parses as Non-Recyclable); the verdict always carries
confidence 0.85 and method `llm`; the item name is `"Unknown Item"` when
the colon or the following period is missing; and the spec's concrete
example parses exactly as stated. -/
theorem C7_parse_gemini_response (text : String) :
    ((parse_gemini_response text).classification = "Recyclable" ↔
      (containsS (lowerS text) "recyclable" = true ∧
       containsS (lowerS text) "non-recyclable" = false)) ∧
    ((parse_gemini_response text).classification = "Recyclable" ∨
     (parse_gemini_response text).classification = "Non-Recyclable") ∧
    (parse_gemini_response text).confidence = 85 / 100 ∧
    (parse_gemini_response text).method = "llm" ∧
    (afterFirstColon text.data = none →
      (parse_gemini_response text).item_name = "Unknown Item") ∧
    (∀ tail, afterFirstColon text.data = some tail →
      (pyStrip tail).contains '.' = false →
      (parse_gemini_response text).item_name = "Unknown Item") ∧
    parse_gemini_response "Recyclable: Plastic Bottle. Clean plastic can be recycled." =
      { classification := "Recyclable"
        item_name := "Plastic Bottle"
        explanation := "Recyclable: Plastic Bottle. Clean plastic can be recycled."
        bin_color := "Green"
        disposal_code := "REC"
        confidence := mkRat 85 100
        method := "llm" } := by
  refine ⟨?_, ?_, ?_, rfl, ?_, ?_, by decide⟩
  · rw [show (parse_gemini_response text).classification =
        (if (containsS (lowerS text) "recyclable" &&
              !containsS (lowerS text) "non-recyclable") = true
         then "Recyclable" else "Non-Recyclable") from rfl]
    rw [category_ite_eq, Bool.and_eq_true, Bool.not_eq_true']
  · exact category_ite_total _
  · show mkRat 85 100 = 85 / 100
    rw [Rat.mkRat_eq_div]
    norm_num
  · intro h
    show extractItemName text = "Unknown Item"
    unfold extractItemName
    rw [h]
  · intro tail htail hdot
    show extractItemName text = "Unknown Item"
    unfold extractItemName
    rw [htail]
    show (if (pyStrip tail).contains '.' = true
          then (⟨pyStrip ((pyStrip tail).takeWhile fun c => c ≠ '.')⟩ : String)
          else "Unknown Item") = "Unknown Item"
    rw [hdot, if_neg (by decide)]

/-- C7 witness: the missing-separator branch applied at a concrete text. -/
theorem C7_parse_gemini_response_witness :
    (parse_gemini_response "no separators here").item_name = "Unknown Item" :=
  (C7_parse_gemini_response "no separators here").2.2.2.2.1 rfl

/-- If no result's first skeleton passes the wrist gate, the pose scan
finds nothing. -/
lemma firstAccepted_eq_none (rs : List (Option (List Skeleton)))
    (hw : ∀ r ∈ rs, ∀ s ∈ (r.getD []).take 1, wristOk s = false) :
    firstAccepted rs = none := by
  induction rs with
  | nil => rfl
  | cons r rest ih =>
    have hrest : ∀ r2 ∈ rest, ∀ s ∈ (r2.getD []).take 1, wristOk s = false :=
      fun r2 hr2 => hw r2 (List.mem_cons_of_mem _ hr2)
    match r with
    | none => exact ih hrest
    | some [] => exact ih hrest
    | some (s :: ss) =>
      have hs : wristOk s = false :=
        hw (some (s :: ss)) (List.mem_cons_self _ _) s (by simp)
      show (if wristOk s = true then some s else firstAccepted rest) = none
      rw [hs, if_neg (by decide)]
      exact ih hrest

/-- C3: the wrist gate is strict — a wrist is accepted iff its confidence
exceeds 0.30, confidence exactly 0.30 is rejected, and whenever no
skeleton's wrists clear the gate the detector takes the fallback path and
reports no hand. -/
theorem C3_wrist_threshold (env : Env) (w h : ℤ)
    (hp : env.poseLoaded = true) (hr : env.poseRaises = false)
    (hw : ∀ r ∈ env.poseResults, ∀ s ∈ (r.getD []).take 1, wristOk s = false) :
    (∀ c : ℚ, wristAccepted c = true ↔ 30 / 100 < c) ∧
    wristAccepted (30 / 100) = false ∧
    detect_hand_wrist env w h = (detect_person_fallback env).getD noDetectResult ∧
    (detect_hand_wrist env w h).hand_detected = false := by
  have hthresh : WRIST_CONFIDENCE_THRESHOLD = 30 / 100 := by
    rw [WRIST_CONFIDENCE_THRESHOLD, Rat.mkRat_eq_div]
    norm_num
  have hmain : detect_hand_wrist env w h = (detect_person_fallback env).getD noDetectResult := by
    unfold detect_hand_wrist
    rw [hp, hr, firstAccepted_eq_none env.poseResults hw]
    rfl
  refine ⟨?_, ?_, hmain, ?_⟩
  · intro c
    simp [wristAccepted, hthresh]
  · simp [wristAccepted, hthresh]
  · rw [hmain]
    rcases detect_person_fallback_cases env with hf | hf <;> rw [hf] <;> rfl

/-- A skeleton whose wrists sit exactly at the 0.30 boundary. -/
def sBoundary : Skeleton :=
  ⟨⟨100, 100, mkRat 30 100⟩, ⟨200, 100, mkRat 30 100⟩,
   ⟨150, 150, mkRat 9 10⟩, ⟨250, 150, mkRat 9 10⟩,
   ⟨150, 200, mkRat 9 10⟩, ⟨250, 200, mkRat 9 10⟩, 17⟩

/-- Pose loaded, one detected person at the exact wrist boundary, no
detection model for the fallback. -/
def envBoundary : Env :=
  { image := some ⟨640, 480⟩
    poseLoaded := true
    poseRaises := false
    poseResults := [some [sBoundary]]
    detLoaded := false
    fallbackResults := []
    objResults := [] }

/-- C3 witness: a person whose wrists are at confidence exactly 0.30 is
rejected end to end — the detector lands on the fallback path. -/
theorem C3_wrist_threshold_witness :
    detect_hand_wrist envBoundary 640 480 =
      (detect_person_fallback envBoundary).getD noDetectResult ∧
    (detect_hand_wrist envBoundary 640 480).hand_detected = false :=
  ⟨(C3_wrist_threshold envBoundary 640 480 rfl rfl (by decide)).2.2.1,
   (C3_wrist_threshold envBoundary 640 480 rfl rfl (by decide)).2.2.2⟩

/-- C4 (amended): dominant-arm selection picks the side whose wrist
confidence is strictly higher, but a TIE resolves to the RIGHT arm (the
source tests `left > right`), and with equal confidences the detector
reports the right wrist's position. -/
theorem C4_dominant_arm (s : Skeleton) (w h : ℤ)
    (heq : s.leftWrist.conf = s.rightWrist.conf) :
    (∀ lc rc : ℚ, rc < lc → selectDominantArm lc rc = Side.left) ∧
    (∀ lc rc : ℚ, lc < rc → selectDominantArm lc rc = Side.right) ∧
    (∀ lc rc : ℚ, lc = rc → selectDominantArm lc rc = Side.right) ∧
    selectDominantArm s.leftWrist.conf s.rightWrist.conf = Side.right ∧
    (poseResult s w h).wrist_position =
      some ⟨truncQ s.rightWrist.x, truncQ s.rightWrist.y⟩ := by
  have hsel : ∀ lc rc : ℚ, lc = rc → selectDominantArm lc rc = Side.right := by
    intro lc rc hlr
    rw [selectDominantArm, if_neg (by rw [hlr]; exact lt_irrefl rc)]
  refine ⟨?_, ?_, hsel, hsel _ _ heq, ?_⟩
  · intro lc rc hlt
    rw [selectDominantArm, if_pos hlt]
  · intro lc rc hlt
    rw [selectDominantArm, if_neg (lt_asymm hlt)]
  · show some (⟨truncQ (chosenWrist s).x, truncQ (chosenWrist s).y⟩ : Pt) = _
    rw [chosenWrist, hsel _ _ heq]

/-- C4 counterexample: at left = right = 0.5 the selection is the right
arm, not the left as the claim states. -/
theorem C4_counterexample_tie_is_right :
    selectDominantArm (mkRat 1 2) (mkRat 1 2) = Side.right ∧
    ¬ selectDominantArm (mkRat 1 2) (mkRat 1 2) = Side.left := by decide

/-- A skeleton with equal wrist confidences 0.5 and distinct wrist
positions. -/
def sTie : Skeleton :=
  ⟨⟨100, 110, mkRat 1 2⟩, ⟨300, 120, mkRat 1 2⟩,
   ⟨150, 150, mkRat 9 10⟩, ⟨350, 150, mkRat 9 10⟩,
   ⟨150, 200, mkRat 9 10⟩, ⟨350, 200, mkRat 9 10⟩, 17⟩

/-- C4 witness: with both wrists at 0.5 the reported wrist position is the
right wrist's. -/
theorem C4_dominant_arm_witness :
    (poseResult sTie 640 480).wrist_position = some ⟨300, 120⟩ := by
  have h := (C4_dominant_arm sTie 640 480 rfl).2.2.2.2
  rw [h]
  decide

/-- The fields of `handRegion`, spelled out. -/
lemma handRegion_fields (wx wy ex ey : ℤ) (ec : ℚ) (sx sy w h : ℤ) :
    handRegion wx wy ex ey ec sx sy w h =
      { x_min := max 0 (handCenter wx (handDx wx ex ec sx) - 250)
        y_min := max 0 (handCenter wy (handDx wy ey ec sy) - 250)
        x_max := min w (handCenter wx (handDx wx ex ec sx) + 250)
        y_max := min h (handCenter wy (handDx wy ey ec sy) + 250) } := rfl

/-- The `x_min` of `handRegion`. -/
lemma handRegion_x_min (wx wy ex ey : ℤ) (ec : ℚ) (sx sy w h : ℤ) :
    (handRegion wx wy ex ey ec sx sy w h).x_min =
      max 0 (handCenter wx (handDx wx ex ec sx) - 250) := rfl

/-- The `y_min` of `handRegion`. -/
lemma handRegion_y_min (wx wy ex ey : ℤ) (ec : ℚ) (sx sy w h : ℤ) :
    (handRegion wx wy ex ey ec sx sy w h).y_min =
      max 0 (handCenter wy (handDx wy ey ec sy) - 250) := rfl

/-- The `x_max` of `handRegion`. -/
lemma handRegion_x_max (wx wy ex ey : ℤ) (ec : ℚ) (sx sy w h : ℤ) :
    (handRegion wx wy ex ey ec sx sy w h).x_max =
      min w (handCenter wx (handDx wx ex ec sx) + 250) := rfl

/-- The `y_max` of `handRegion`. -/
lemma handRegion_y_max (wx wy ex ey : ℤ) (ec : ℚ) (sx sy w h : ℤ) :
    (handRegion wx wy ex ey ec sx sy w h).y_max =
      min h (handCenter wy (handDx wy ey ec sy) + 250) := rfl

/-- C5 (amended): the derived hand region satisfies
`0 ≤ x_min ≤ x_max ≤ w` and `0 ≤ y_min ≤ y_max ≤ h` for every wrist,
elbow/shoulder position and nonnegative frame size, PROVIDED the computed
hand center lies within 250 px of the frame (between `-250` and
`size + 250` on each axis); when the center strays further than the
250 px half-width, the `max`/`min` clamp inverts the rectangle. -/
theorem C5_hand_region_clamped (wx wy ex ey : ℤ) (ec : ℚ) (sx sy w h : ℤ)
    (hw : 0 ≤ w) (hh : 0 ≤ h)
    (hcx1 : -250 ≤ handCenter wx (handDx wx ex ec sx))
    (hcx2 : handCenter wx (handDx wx ex ec sx) ≤ w + 250)
    (hcy1 : -250 ≤ handCenter wy (handDx wy ey ec sy))
    (hcy2 : handCenter wy (handDx wy ey ec sy) ≤ h + 250) :
    0 ≤ (handRegion wx wy ex ey ec sx sy w h).x_min ∧
    (handRegion wx wy ex ey ec sx sy w h).x_min ≤
      (handRegion wx wy ex ey ec sx sy w h).x_max ∧
    (handRegion wx wy ex ey ec sx sy w h).x_max ≤ w ∧
    0 ≤ (handRegion wx wy ex ey ec sx sy w h).y_min ∧
    (handRegion wx wy ex ey ec sx sy w h).y_min ≤
      (handRegion wx wy ex ey ec sx sy w h).y_max ∧
    (handRegion wx wy ex ey ec sx sy w h).y_max ≤ h := by
  rw [handRegion_x_min, handRegion_x_max, handRegion_y_min, handRegion_y_max]
  refine ⟨le_max_left 0 _, ?_, min_le_left w _, le_max_left 0 _, ?_, min_le_left h _⟩
  · exact le_min (max_le hw (by omega)) (max_le (by omega) (by omega))
  · exact le_min (max_le hh (by omega)) (max_le (by omega) (by omega))

/-- C5 counterexample: a wrist far outside a 640x480 frame (wrist x 10000,
elbow x 9000, elbow confidence 0.9) produces a hand region with
`x_max < x_min` — the claimed ordering invariant fails when the computed
center lies more than 250 px beyond the frame. -/
theorem C5_counterexample_inverted_region :
    (handRegion 10000 100 9000 100 (mkRat 9 10) 0 0 640 480).x_max <
    (handRegion 10000 100 9000 100 (mkRat 9 10) 0 0 640 480).x_min := by
  rw [handRegion_fields]
  simp only [handCenter_eval]
  decide

/-- C5 witness: the clamping invariant at a concrete in-frame wrist. -/
theorem C5_hand_region_clamped_witness :
    0 ≤ (handRegion 100 100 150 150 (mkRat 9 10) 150 200 640 480).x_min ∧
    (handRegion 100 100 150 150 (mkRat 9 10) 150 200 640 480).x_min ≤
      (handRegion 100 100 150 150 (mkRat 9 10) 150 200 640 480).x_max ∧
    (handRegion 100 100 150 150 (mkRat 9 10) 150 200 640 480).x_max ≤ 640 ∧
    0 ≤ (handRegion 100 100 150 150 (mkRat 9 10) 150 200 640 480).y_min ∧
    (handRegion 100 100 150 150 (mkRat 9 10) 150 200 640 480).y_min ≤
      (handRegion 100 100 150 150 (mkRat 9 10) 150 200 640 480).y_max ∧
    (handRegion 100 100 150 150 (mkRat 9 10) 150 200 640 480).y_max ≤ 480 :=
  C5_hand_region_clamped 100 100 150 150 (mkRat 9 10) 150 200 640 480
    (by decide) (by decide)
    (by simp only [handCenter_eval]; decide)
    (by simp only [handCenter_eval]; decide)
    (by simp only [handCenter_eval]; decide)
    (by simp only [handCenter_eval]; decide)

/-! ### The scan loop as a first-match search -/

/-- `scanBoxes` on the empty list. -/
lemma scanBoxes_nil (w h : ℤ) (hb : Rect) (st : ScanState) :
    scanBoxes w h hb [] st = (st, false) := rfl

/-- `scanBoxes` on a person box: append and continue. -/
lemma scanBoxes_cons_person (w h : ℤ) (hb : Rect) (b : DetBox) (rest : List DetBox)
    (st : ScanState) (hp : (lowerS b.cls == "person") = true) :
    scanBoxes w h hb (b :: rest) st =
      scanBoxes w h hb rest
        { st with detected_objects := st.detected_objects ++ [mkDetObj b] } := by
  conv_lhs => unfold scanBoxes
  rw [hp]
  simp

/-- `scanBoxes` on a matching box: set the match state and break. -/
lemma scanBoxes_cons_match (w h : ℤ) (hb : Rect) (b : DetBox) (rest : List DetBox)
    (st : ScanState) (hp : (lowerS b.cls == "person") = false)
    (hc : centerInHand hb b = true) :
    scanBoxes w h hb (b :: rest) st =
      ({ object_in_hand := true
         object_bbox := some (mkObjBox b)
         cropped_image :=
           match cropRegion w h b with
           | some r => some r
           | none => st.cropped_image
         max_confidence := max st.max_confidence b.conf
         detected_objects := st.detected_objects ++ [mkDetObj b] }, true) := by
  conv_lhs => unfold scanBoxes
  rw [hp, hc]
  simp

/-- `scanBoxes` on a non-person non-matching box: append and continue. -/
lemma scanBoxes_cons_skip (w h : ℤ) (hb : Rect) (b : DetBox) (rest : List DetBox)
    (st : ScanState) (hp : (lowerS b.cls == "person") = false)
    (hc : centerInHand hb b = false) :
    scanBoxes w h hb (b :: rest) st =
      scanBoxes w h hb rest
        { st with detected_objects := st.detected_objects ++ [mkDetObj b] } := by
  conv_lhs => unfold scanBoxes
  rw [hp, hc]
  simp

/-- `scanResults` step lemmas. -/
lemma scanResults_cons_none (w h : ℤ) (hb : Rect) (rest : List (Option (List DetBox)))
    (st : ScanState) :
    scanResults w h hb (none :: rest) st = scanResults w h hb rest st := rfl

/-- `scanResults` on a result with boxes: run the inner loop, break on match. -/
lemma scanResults_cons_some (w h : ℤ) (hb : Rect) (boxes : List DetBox)
    (rest : List (Option (List DetBox))) (st : ScanState) :
    scanResults w h hb (some boxes :: rest) st =
      (if (scanBoxes w h hb boxes st).1.object_in_hand = true
       then (scanBoxes w h hb boxes st).1
       else scanResults w h hb rest (scanBoxes w h hb boxes st).1) := rfl

/-- Appending after a list that already contains a match does not extend the
scanned prefix; appending after a match-free list does. -/
lemma scannedUpTo_append (hb : Rect) (l1 l2 : List DetBox) :
    scannedUpTo hb (l1 ++ l2) =
      if (l1.find? (heldBy hb)).isSome then scannedUpTo hb l1
      else l1 ++ scannedUpTo hb l2 := by
  induction l1 with
  | nil => simp [scannedUpTo]
  | cons b rest ih =>
    cases hbh : heldBy hb b with
    | true =>
      rw [List.cons_append]
      rw [show scannedUpTo hb (b :: (rest ++ l2)) = [b] by simp [scannedUpTo, hbh]]
      rw [List.find?_cons_of_pos _ hbh]
      simp [scannedUpTo, hbh]
    | false =>
      rw [List.cons_append]
      rw [show scannedUpTo hb (b :: (rest ++ l2)) = b :: scannedUpTo hb (rest ++ l2) by
        simp [scannedUpTo, hbh]]
      rw [List.find?_cons_of_neg _ (by simp [hbh]), ih]
      rw [show scannedUpTo hb (b :: rest) = b :: scannedUpTo hb rest by simp [scannedUpTo, hbh]]
      split
      · rfl
      · rfl

/-- A match-free list is scanned in full. -/
lemma scannedUpTo_of_find?_eq_none (hb : Rect) (l : List DetBox)
    (h : l.find? (heldBy hb) = none) : scannedUpTo hb l = l := by
  induction l with
  | nil => rfl
  | cons b rest ih =>
    have hall := List.find?_eq_none.mp h
    have hbf : heldBy hb b = false := by
      have := hall b (List.mem_cons_self _ _)
      rwa [Bool.not_eq_true] at this
    have hrest : rest.find? (heldBy hb) = none :=
      List.find?_eq_none.mpr fun x hx => hall x (List.mem_cons_of_mem _ hx)
    simp [scannedUpTo, hbf, ih hrest]

/-- The inner loop as a first-match search: starting from a state with no
match yet, the break flag, `object_in_hand`, `object_bbox` and
`max_confidence` follow `List.find?` of the match predicate, and
`detected_objects` grows by the scanned prefix. -/
lemma scanBoxes_spec (w h : ℤ) (hb : Rect) (boxes : List DetBox) (st : ScanState)
    (h1 : st.object_in_hand = false) (h2 : st.object_bbox = none) :
    (scanBoxes w h hb boxes st).2 = (boxes.find? (heldBy hb)).isSome ∧
    (scanBoxes w h hb boxes st).1.object_in_hand = (boxes.find? (heldBy hb)).isSome ∧
    (scanBoxes w h hb boxes st).1.object_bbox = (boxes.find? (heldBy hb)).map mkObjBox ∧
    (scanBoxes w h hb boxes st).1.max_confidence =
      ((boxes.find? (heldBy hb)).map (fun b => max st.max_confidence b.conf)).getD
        st.max_confidence ∧
    (scanBoxes w h hb boxes st).1.detected_objects =
      st.detected_objects ++ (scannedUpTo hb boxes).map mkDetObj := by
  induction boxes generalizing st with
  | nil =>
    rw [scanBoxes_nil]
    exact ⟨rfl, h1, by rw [h2]; rfl, rfl, by simp [scannedUpTo]⟩
  | cons b rest ih =>
    cases hp : lowerS b.cls == "person" with
    | true =>
      have hheld : heldBy hb b = false := by simp [heldBy, hp]
      rw [scanBoxes_cons_person w h hb b rest st hp,
        List.find?_cons_of_neg _ (by simp [hheld]),
        show scannedUpTo hb (b :: rest) = b :: scannedUpTo hb rest by
          simp [scannedUpTo, hheld]]
      obtain ⟨i1, i2, i3, i4, i5⟩ :=
        ih { st with detected_objects := st.detected_objects ++ [mkDetObj b] } h1 h2
      exact ⟨i1, i2, i3, i4, by rw [i5]; simp⟩
    | false =>
      cases hc : centerInHand hb b with
      | true =>
        have hheld : heldBy hb b = true := by simp [heldBy, hp, hc]
        rw [scanBoxes_cons_match w h hb b rest st hp hc,
          List.find?_cons_of_pos _ hheld,
          show scannedUpTo hb (b :: rest) = [b] by simp [scannedUpTo, hheld]]
        exact ⟨rfl, rfl, rfl, rfl, by simp⟩
      | false =>
        have hheld : heldBy hb b = false := by simp [heldBy, hp, hc]
        rw [scanBoxes_cons_skip w h hb b rest st hp hc,
          List.find?_cons_of_neg _ (by simp [hheld]),
          show scannedUpTo hb (b :: rest) = b :: scannedUpTo hb rest by
            simp [scannedUpTo, hheld]]
        obtain ⟨i1, i2, i3, i4, i5⟩ :=
          ih { st with detected_objects := st.detected_objects ++ [mkDetObj b] } h1 h2
        exact ⟨i1, i2, i3, i4, by rw [i5]; simp⟩

/-- The outer loop as a first-match search over the flattened box stream. -/
lemma scanResults_spec (w h : ℤ) (hb : Rect) (rs : List (Option (List DetBox)))
    (st : ScanState) (h1 : st.object_in_hand = false) (h2 : st.object_bbox = none) :
    (scanResults w h hb rs st).object_in_hand =
      ((allBoxes rs).find? (heldBy hb)).isSome ∧
    (scanResults w h hb rs st).object_bbox =
      ((allBoxes rs).find? (heldBy hb)).map mkObjBox ∧
    (scanResults w h hb rs st).max_confidence =
      (((allBoxes rs).find? (heldBy hb)).map (fun b => max st.max_confidence b.conf)).getD
        st.max_confidence ∧
    (scanResults w h hb rs st).detected_objects =
      st.detected_objects ++ (scannedUpTo hb (allBoxes rs)).map mkDetObj := by
  induction rs generalizing st with
  | nil =>
    rw [show scanResults w h hb [] st = st from rfl]
    exact ⟨h1, by rw [h2]; rfl, rfl, by simp [allBoxes, scannedUpTo]⟩
  | cons r rest ih =>
    cases r with
    | none =>
      rw [scanResults_cons_none]
      have hall : allBoxes (none :: rest) = allBoxes rest := by simp [allBoxes]
      rw [hall]
      exact ih st h1 h2
    | some boxes =>
      have hall : allBoxes (some boxes :: rest) = boxes ++ allBoxes rest := rfl
      obtain ⟨f1, f2, f3, f4, f5⟩ := scanBoxes_spec w h hb boxes st h1 h2
      rw [scanResults_cons_some, hall]
      rcases hfind : boxes.find? (heldBy hb) with _ | b
      · have f2' : (scanBoxes w h hb boxes st).1.object_in_hand = false := by
          rw [f2, hfind]; rfl
        have f3' : (scanBoxes w h hb boxes st).1.object_bbox = none := by
          rw [f3, hfind]; rfl
        have f4' : (scanBoxes w h hb boxes st).1.max_confidence = st.max_confidence := by
          rw [f4, hfind]; rfl
        have f5' : (scanBoxes w h hb boxes st).1.detected_objects =
            st.detected_objects ++ boxes.map mkDetObj := by
          rw [f5, scannedUpTo_of_find?_eq_none hb boxes hfind]
        rw [if_neg (by rw [f2']; exact Bool.false_ne_true)]
        obtain ⟨g1, g2, g3, g4⟩ := ih (scanBoxes w h hb boxes st).1 f2' f3'
        refine ⟨?_, ?_, ?_, ?_⟩
        · rw [g1]
          simp [List.find?_append, hfind]
        · rw [g2]
          simp [List.find?_append, hfind]
        · rw [g3, f4']
          simp [List.find?_append, hfind]
        · rw [g4, f5', scannedUpTo_append, hfind]
          simp
      · have f2' : (scanBoxes w h hb boxes st).1.object_in_hand = true := by
          rw [f2, hfind]; rfl
        rw [if_pos f2']
        refine ⟨?_, ?_, ?_, ?_⟩
        · rw [f2']
          simp [List.find?_append, hfind]
        · rw [f3, hfind]
          simp [List.find?_append, hfind]
        · rw [f4, hfind]
          simp [List.find?_append, hfind]
        · rw [f5, scannedUpTo_append, hfind]
          simp

/-! ### Endpoint accessors and the full-path route reduction -/

/-- `detected_objects` of a response (`none` when the key is absent). -/
def detectedObjectsOf : DetectOut → Option (List DetObj)
  | DetectOut.simple _ => none
  | DetectOut.merged m => m.detected_objects

/-- `object_in_hand` of a response (present in every endpoint payload). -/
def objectInHandOf : DetectOut → Bool
  | DetectOut.simple p => p.object_in_hand
  | DetectOut.merged m => m.object_in_hand

/-- `object_bbox` of a response (`none` when absent or null). -/
def objectBBoxOf : DetectOut → Option ObjBox
  | DetectOut.simple _ => none
  | DetectOut.merged m => m.object_bbox

/-- Top-level `confidence` of a response (absent in the 4-key payloads). -/
def confidenceOf : DetectOut → Option ℚ
  | DetectOut.simple _ => none
  | DetectOut.merged m => some m.confidence

/-- The full detection path of the endpoint: a decoded image, a detected
hand and wrist, and a loaded detection model yield the scan-merged
response of lines 845-853. -/
lemma detectRoute_full (env : Env) (f : Frame) (hb : Rect)
    (himg : env.image = some f)
    (hhand : (detect_hand_wrist env f.w f.h).hand_detected = true)
    (hwrist : (detect_hand_wrist env f.w f.h).wrist_detected = true)
    (hbb : (detect_hand_wrist env f.w f.h).hand_bbox = some hb)
    (hdl : env.detLoaded = true) :
    detectRoute env = DetectOut.merged
      { hand_detected := (detect_hand_wrist env f.w f.h).hand_detected
        wrist_detected := (detect_hand_wrist env f.w f.h).wrist_detected
        hand_bbox := (detect_hand_wrist env f.w f.h).hand_bbox
        wrist_position := (detect_hand_wrist env f.w f.h).wrist_position
        confidence :=
          if (scanResults f.w f.h hb env.objResults initScan).object_in_hand
          then (scanResults f.w f.h hb env.objResults initScan).max_confidence
          else (detect_hand_wrist env f.w f.h).confidence
        keypoints_count := (detect_hand_wrist env f.w f.h).keypoints_count
        message :=
          if (scanResults f.w f.h hb env.objResults initScan).object_in_hand
          then "Hand, wrist, and object detected"
          else "Hand/wrist detected, waiting for object"
        method := (detect_hand_wrist env f.w f.h).method
        object_in_hand := (scanResults f.w f.h hb env.objResults initScan).object_in_hand
        cropped_image := (scanResults f.w f.h hb env.objResults initScan).cropped_image
        object_bbox := (scanResults f.w f.h hb env.objResults initScan).object_bbox
        detected_objects :=
          some (scanResults f.w f.h hb env.objResults initScan).detected_objects } := by
  unfold detectRoute
  rw [himg]
  simp only [hhand, hwrist, hbb, hdl]
  simp

/-- C6: the object-in-hand resolution scans detected boxes in
detector-returned order, skips every person box, matches the FIRST
remaining box whose center lies in `hand_bbox` with inclusive bounds —
recording that box's class, confidence and bbox — and scans no further
(its `detected_objects` stop at the match); a non-person box with its
center exactly on the boundary is in hand, one 1 px outside is not. -/
theorem C6_first_match_scan (w h : ℤ) (hb : Rect) (rs : List (Option (List DetBox))) :
    (scanResults w h hb rs initScan).object_bbox =
      ((allBoxes rs).find? (heldBy hb)).map mkObjBox ∧
    (scanResults w h hb rs initScan).object_in_hand =
      ((allBoxes rs).find? (heldBy hb)).isSome ∧
    (scanResults w h hb rs initScan).detected_objects =
      (scannedUpTo hb (allBoxes rs)).map mkDetObj ∧
    (∀ b : DetBox, lowerS b.cls = "person" → heldBy hb b = false) ∧
    (∀ b : DetBox, lowerS b.cls ≠ "person" →
      (heldBy hb b = true ↔
        (hb.x_min ≤ boxCenterX b ∧ boxCenterX b ≤ hb.x_max ∧
         hb.y_min ≤ boxCenterY b ∧ boxCenterY b ≤ hb.y_max))) ∧
    (∀ b : DetBox, boxCenterX b = hb.x_max + 1 → heldBy hb b = false) := by
  obtain ⟨s1, s2, s3, s4⟩ := scanResults_spec w h hb rs initScan rfl rfl
  refine ⟨s2, s1, by rw [s4]; simp [initScan], ?_, ?_, ?_⟩
  · intro b hpers
    simp [heldBy, hpers]
  · intro b hpers
    have hne : (lowerS b.cls == "person") = false := by
      simp [hpers]
    simp [heldBy, hne, centerInHand, and_assoc]
  · intro b hcx
    have h2 : ¬ (boxCenterX b ≤ hb.x_max) := by omega
    simp [heldBy, centerInHand, h2]

/-- A hand box and three boxes around its inclusive right edge. -/
def hbEx : Rect := ⟨100, 100, 300, 300⟩

/-- A non-person box whose center (300, 200) lies exactly on the right edge
of `hbEx`. -/
def boxOnBoundary : DetBox := ⟨"bottle", mkRat 8 10, 250, 150, 350, 250⟩

/-- A non-person box whose center (301, 200) lies 1 px outside `hbEx`. -/
def boxOutside : DetBox := ⟨"cup", mkRat 8 10, 252, 150, 350, 250⟩

/-- C6 witness: the inclusive-boundary containment applied at concrete
boxes: a center exactly on the edge is in hand, 1 px outside is not. -/
theorem C6_first_match_scan_witness :
    heldBy hbEx boxOnBoundary = true ∧ heldBy hbEx boxOutside = false :=
  ⟨((C6_first_match_scan 640 480 hbEx []).2.2.2.2.1 boxOnBoundary (by decide)).2
      ⟨by decide, by decide, by decide, by decide⟩,
   (C6_first_match_scan 640 480 hbEx []).2.2.2.2.2 boxOutside (by decide)⟩

/-- An environment with an undecodable image. -/
def envInvalid : Env :=
  { image := none
    poseLoaded := true
    poseRaises := false
    poseResults := []
    detLoaded := true
    fallbackResults := []
    objResults := [] }

/-- C9 (amended): an undecodable image makes the DETECTION endpoint return
the normal 200 payload `{hand_detected: false, wrist_detected: false,
object_in_hand: false, message: "Invalid image"}` (no HTTP error), while
the CLASSIFY endpoint raises `HTTPException(400, "Invalid image")` —
re-raised past the generic handler — instead of producing a fallback
verdict; the claim has the two endpoints swapped. -/
theorem C9_invalid_image (env : Env) (cst : ClassifierState) (m : Option String)
    (himg : env.image = none) :
    detectRoute env = DetectOut.simple invalidImagePayload ∧
    invalidImagePayload.hand_detected = false ∧
    invalidImagePayload.message = "Invalid image" ∧
    classify_route none cst m = Except.error ⟨400, "Invalid image"⟩ := by
  refine ⟨?_, rfl, rfl, rfl⟩
  unfold detectRoute
  rw [himg]

/-- C9 counterexample: at an undecodable image the classify endpoint
returns an HTTP 400 error — not the fallback verdict the claim promises —
and the detection endpoint returns a plain 200 payload, not a client
error. -/
theorem C9_counterexample_swapped :
    classify_route none cstNone (some "model") = Except.error ⟨400, "Invalid image"⟩ ∧
    classify_route none cstNone (some "model") ≠ Except.ok get_fallback_classification ∧
    detectRoute envInvalid = DetectOut.simple invalidImagePayload := by
  refine ⟨rfl, ?_, rfl⟩
  rw [show classify_route none cstNone (some "model") =
      Except.error ⟨400, "Invalid image"⟩ from rfl]
  intro hcontra
  exact Except.noConfusion hcontra

/-- C9 witness: the amended behaviour at the concrete empty environment. -/
theorem C9_invalid_image_witness :
    detectRoute envInvalid = DetectOut.simple invalidImagePayload ∧
    classify_route none cstNone none = Except.error ⟨400, "Invalid image"⟩ :=
  ⟨(C9_invalid_image envInvalid cstNone none rfl).1,
   (C9_invalid_image envInvalid cstNone none rfl).2.2.2⟩

/-! ### Concrete full-path environments -/

/-- A skeleton with a confidently detected left wrist at (100, 100), elbow
(150, 150) with confidence 0.9 and shoulder (150, 200): the derived hand
center is (82, 82) and the hand box is (0, 0)-(332, 332) in a 640x480
frame. -/
def sGood : Skeleton :=
  ⟨⟨100, 100, mkRat 9 10⟩, ⟨200, 100, mkRat 1 10⟩,
   ⟨150, 150, mkRat 9 10⟩, ⟨250, 150, mkRat 9 10⟩,
   ⟨150, 200, mkRat 9 10⟩, ⟨250, 200, mkRat 9 10⟩, 17⟩

/-- A non-person box whose center (100, 100) lies in the hand box. -/
def boxM : DetBox := ⟨"bottle", mkRat 8 10, 50, 50, 150, 150⟩

/-- A non-person box whose center (450, 100) lies outside the hand box. -/
def boxB : DetBox := ⟨"cup", mkRat 7 10, 400, 50, 500, 150⟩

/-- Full-path environment: pose succeeds with `sGood`, detection model
loaded, the endpoint detector returns a matching box then a second box. -/
def envC8 : Env :=
  { image := some ⟨640, 480⟩
    poseLoaded := true
    poseRaises := false
    poseResults := [some [sGood]]
    detLoaded := true
    fallbackResults := []
    objResults := [some [boxM, boxB]] }

/-- Like `envC8` but with only the non-matching box. -/
def envC8w : Env := { envC8 with objResults := [some [boxB]] }

/-- The hand box the pose path derives from `sGood` in a 640x480 frame. -/
lemma poseResult_sGood_bbox :
    (poseResult sGood 640 480).hand_bbox = some ⟨0, 0, 332, 332⟩ := by
  show some (handRegion 100 100 150 150 (mkRat 9 10) 150 200 640 480) = _
  rw [handRegion_fields]
  simp only [handCenter_eval]
  decide

/-- C8 (amended): on the full detection path the response's
`detected_objects` lists exactly the boxes scanned up to and including the
first match; it covers EVERY detector-returned box precisely when no
non-person box matched — on a match the loop breaks and later boxes are
never recorded. -/
theorem C8_detected_objects (env : Env) (f : Frame) (hb : Rect)
    (himg : env.image = some f)
    (hhand : (detect_hand_wrist env f.w f.h).hand_detected = true)
    (hwrist : (detect_hand_wrist env f.w f.h).wrist_detected = true)
    (hbb : (detect_hand_wrist env f.w f.h).hand_bbox = some hb)
    (hdl : env.detLoaded = true) :
    detectedObjectsOf (detectRoute env) =
      some ((scannedUpTo hb (allBoxes env.objResults)).map mkDetObj) ∧
    ((allBoxes env.objResults).find? (heldBy hb) = none →
      detectedObjectsOf (detectRoute env) =
        some ((allBoxes env.objResults).map mkDetObj)) := by
  have hroute := detectRoute_full env f hb himg hhand hwrist hbb hdl
  obtain ⟨_, _, _, s4⟩ := scanResults_spec f.w f.h hb env.objResults initScan rfl rfl
  have hmain : detectedObjectsOf (detectRoute env) =
      some ((scannedUpTo hb (allBoxes env.objResults)).map mkDetObj) := by
    rw [hroute]
    show some (scanResults f.w f.h hb env.objResults initScan).detected_objects = _
    rw [s4]
    simp [initScan]
  refine ⟨hmain, fun hnone => ?_⟩
  rw [hmain, scannedUpTo_of_find?_eq_none hb _ hnone]

/-- C8 counterexample: with two detector boxes of which the first matches,
the response's `detected_objects` contains only the first — the loop broke
before recording the second box, so the list does not cover every box the
detector returned. -/
theorem C8_counterexample_truncated :
    (detect_hand_wrist envC8 640 480).hand_detected = true ∧
    (detect_hand_wrist envC8 640 480).wrist_detected = true ∧
    allBoxes envC8.objResults = [boxM, boxB] ∧
    detectedObjectsOf (detectRoute envC8) = some [mkDetObj boxM] := by
  refine ⟨rfl, rfl, rfl, ?_⟩
  rw [detectRoute_full envC8 ⟨640, 480⟩ ⟨0, 0, 332, 332⟩ rfl rfl rfl
    poseResult_sGood_bbox rfl]
  decide

/-- C8 witness: with no matching box the response lists every detector
box. -/
theorem C8_detected_objects_witness :
    detectedObjectsOf (detectRoute envC8w) =
      some ((allBoxes envC8w.objResults).map mkDetObj) := by
  apply (C8_detected_objects envC8w ⟨640, 480⟩ ⟨0, 0, 332, 332⟩ rfl rfl rfl
    poseResult_sGood_bbox rfl).2
  decide

/-- C10: in the merged full-path response, a matched object's detection
confidence replaces the hand-detection (wrist keypoint) confidence in the
top-level `confidence` field; with no match the field keeps the
hand-detection confidence unchanged.  (The detector returns only
nonnegative confidences, which the `max` with the 0 initial accumulator
passes through.) -/
theorem C10_confidence_merge (env : Env) (f : Frame) (hb : Rect)
    (himg : env.image = some f)
    (hhand : (detect_hand_wrist env f.w f.h).hand_detected = true)
    (hwrist : (detect_hand_wrist env f.w f.h).wrist_detected = true)
    (hbb : (detect_hand_wrist env f.w f.h).hand_bbox = some hb)
    (hdl : env.detLoaded = true)
    (hconf : ∀ b ∈ allBoxes env.objResults, 0 ≤ b.conf) :
    (∀ ob : ObjBox, objectBBoxOf (detectRoute env) = some ob →
      objectInHandOf (detectRoute env) = true ∧
      confidenceOf (detectRoute env) = some ob.conf) ∧
    (objectInHandOf (detectRoute env) = false →
      confidenceOf (detectRoute env) =
        some (detect_hand_wrist env f.w f.h).confidence) := by
  have hroute := detectRoute_full env f hb himg hhand hwrist hbb hdl
  obtain ⟨s1, s2, s3, _⟩ := scanResults_spec f.w f.h hb env.objResults initScan rfl rfl
  constructor
  · intro ob hob
    rw [hroute] at hob
    have hob2 : (scanResults f.w f.h hb env.objResults initScan).object_bbox = some ob := hob
    rw [s2] at hob2
    rcases hfind : (allBoxes env.objResults).find? (heldBy hb) with _ | b
    · rw [hfind] at hob2
      exact Option.noConfusion hob2
    · rw [hfind] at hob2
      have hbeq : mkObjBox b = ob := Option.some.inj hob2
      have hbc : 0 ≤ b.conf := hconf b (List.mem_of_find?_eq_some hfind)
      have hih : (scanResults f.w f.h hb env.objResults initScan).object_in_hand = true := by
        rw [s1, hfind]
        rfl
      constructor
      · rw [hroute]
        show (scanResults f.w f.h hb env.objResults initScan).object_in_hand = true
        exact hih
      · rw [hroute]
        show some (if (scanResults f.w f.h hb env.objResults initScan).object_in_hand = true
            then (scanResults f.w f.h hb env.objResults initScan).max_confidence
            else (detect_hand_wrist env f.w f.h).confidence) = some ob.conf
        rw [hih, if_pos rfl, s3, hfind]
        show some (max initScan.max_confidence b.conf) = some ob.conf
        rw [← hbeq]
        show some (max 0 b.conf) = some (mkObjBox b).conf
        rw [max_eq_right hbc]
        rfl
  · intro hno
    rw [hroute] at hno ⊢
    have hno2 : (scanResults f.w f.h hb env.objResults initScan).object_in_hand = false := hno
    show some (if (scanResults f.w f.h hb env.objResults initScan).object_in_hand = true
        then (scanResults f.w f.h hb env.objResults initScan).max_confidence
        else (detect_hand_wrist env f.w f.h).confidence) =
      some (detect_hand_wrist env f.w f.h).confidence
    rw [hno2, if_neg Bool.false_ne_true]

/-- C10 witness: with one non-matching box the merged confidence keeps the
hand-detection confidence. -/
theorem C10_confidence_merge_witness :
    confidenceOf (detectRoute envC8w) =
      some (detect_hand_wrist envC8w 640 480).confidence := by
  apply (C10_confidence_merge envC8w ⟨640, 480⟩ ⟨0, 0, 332, 332⟩ rfl rfl rfl
    poseResult_sGood_bbox rfl (by decide)).2
  rw [detectRoute_full envC8w ⟨640, 480⟩ ⟨0, 0, 332, 332⟩ rfl rfl rfl
    poseResult_sGood_bbox rfl]
  decide

end Sortyx
